/-
Verification of the iterative reconstruction engine
(`src/Python/tigre/algorithms/iterative_recon_alg.py`) against its
specification.

The Python class `IterativeReconAlg` is shallowly embedded below:
  * the main loop `run_main_iter` / `error_measurement` becomes a pure
    state-transition function over an explicit `IterState`, with the
    external capabilities (data minimization, the projection operator `Ax`,
    the norm `im3DNORM`, the quality measure `MQ`) supplied as function
    parameters in an `EngineCfg`;
  * construction-time logic (`__dict__.update` of options and kwargs, the
    warning loop, the `hasattr` guards for the four derived quantities)
    becomes functions over association lists of attributes;
  * `set_w` / `set_v` / `set_res` become pure functions on a `Geometry`
    record mirroring the fields the source reads and writes; numpy values
    that may become infinite are modelled by `NpVal` (a rational or +inf),
    and numpy array shapes by `List Nat` with explicit broadcasting.

Machine floats are modelled by rationals: the claims checked here are about
counts, shapes, control flow and sign/finiteness, none of which depend on
rounding.
-/
import Mathlib

namespace TigreIter

/-! ## Events

An execution trace of the capability invocations made by the engine.
`run_main_iter` can invoke: the configured data-minimization method
(line 219 of the source), the quality measurement `MQ` and the residual
norm `im3DNORM` (via `error_measurement`, lines 222-228).  A
`regularisation` event is included so that the trace can express whether
the configured regularisation capability is ever invoked by the loop. -/

inductive Event where
  | dataMin
  | regularisation
  | qualityMeasure
  | residualNorm
deriving DecidableEq, Repr

def countEvent (e : Event) (tr : List Event) : Nat :=
  tr.countP (fun x => decide (x = e))

/-! ## Engine configuration and state -/

/-- The configuration of one engine instance, as established by
`IterativeReconAlg.__init__`: the iteration count, the tracking options
`Quameasopts` / `computel2`, the measured projections, the initial volume
`res`, and the external capabilities as abstract functions.

The field `dataminimizing` is the capability invoked by
`getattr(self, self.dataminimizing)()`.  Modelled from the spec: the body of
`DataMinimization.art_data_minimizing` is not part of the source under
verification; per the spec it is an opaque in-place update of the volume
estimate (using the weight fields, the subset schedule and the projection
operator), a capability boundary whose internals are out of scope, and it is
distinct from the regularisation capability. -/
structure EngineCfg (Vol Proj MQv : Type) where
  niter : Nat
  Quameasopts : Option (List String)
  computel2 : Bool
  proj : Proj
  res0 : Vol
  dataminimizing : Vol → Vol
  Ax : Vol → Proj
  subProj : Proj → Proj → Proj
  im3DNORM : Proj → Nat → ℚ
  MQ : Vol → Option Vol → Option (List String) → MQv

/-- The mutable state of the engine: the volume estimate `res`, the quality
log `lq` and the residual log `l2l` (both initialized to `[]` at lines
115-116 of the source), plus the trace of capability invocations. -/
structure IterState (Vol MQv : Type) where
  res : Vol
  lq : List MQv
  l2l : List ℚ
  trace : List Event

variable {Vol Proj MQv : Type}

/-- State after `__init__` finishes: `lq = []`, `l2l = []` (lines 115-116). -/
def initState (cfg : EngineCfg Vol Proj MQv) : IterState Vol MQv :=
  { res := cfg.res0, lq := [], l2l := [], trace := [] }

/-- Model of `IterativeReconAlg.error_measurement(res_prev, iter)` (lines 222-228):
append `MQ(self.res, res_prev, self.Quameasopts)` to `lq` when
`Quameasopts is not None and iter > 0`; when `computel2`, append
`im3DNORM(self.proj - Ax(self.res, ...), 2)` to `l2l`. -/
def error_measurement (cfg : EngineCfg Vol Proj MQv) (s : IterState Vol MQv)
    (res_prev : Option Vol) (iter : Nat) : IterState Vol MQv :=
  let s1 :=
    if cfg.Quameasopts.isSome ∧ 0 < iter then
      { s with lq := s.lq ++ [cfg.MQ s.res res_prev cfg.Quameasopts],
               trace := s.trace ++ [Event.qualityMeasure] }
    else s
  if cfg.computel2 then
    { s1 with l2l := s1.l2l ++ [cfg.im3DNORM (cfg.subProj cfg.proj (cfg.Ax s1.res)) 2],
              trace := s1.trace ++ [Event.residualNorm] }
  else s1

/-- One round of the loop body of `run_main_iter` (lines 208-220): snapshot
`res_prev = deepcopy(self.res)` when `Quameasopts is not None` (else `None`),
invoke the configured data-minimization capability on the volume estimate,
then `error_measurement(res_prev, i)`.  (The verbose timing prints at lines
212-218 have no effect on the state and are not modelled.) -/
def iterBody (cfg : EngineCfg Vol Proj MQv) (s : IterState Vol MQv) (i : Nat) :
    IterState Vol MQv :=
  let res_prev : Option Vol := if cfg.Quameasopts.isSome then some s.res else none
  let s1 : IterState Vol MQv :=
    { s with res := cfg.dataminimizing s.res, trace := s.trace ++ [Event.dataMin] }
  error_measurement cfg s1 res_prev i

/-- The first `n` rounds of the loop (`for i in range(n)`). -/
def runN (cfg : EngineCfg Vol Proj MQv) (n : Nat) : IterState Vol MQv :=
  (List.range n).foldl (iterBody cfg) (initState cfg)

/-- Model of `IterativeReconAlg.run_main_iter` (lines 201-220): `for i in
range(self.niter)` over the loop body. -/
def run_main_iter (cfg : EngineCfg Vol Proj MQv) : IterState Vol MQv :=
  runN cfg cfg.niter

/-- Model of `IterativeReconAlg.getres` (lines 230-231). -/
def getres (s : IterState Vol MQv) : Vol := s.res

/-- Model of `IterativeReconAlg.getl2` (lines 233-234). -/
def getl2 (s : IterState Vol MQv) : List ℚ := s.l2l

/-- The residual value appended to `l2l` after the `k`-th application of the
data-minimization capability: `im3DNORM(self.proj - Ax(self.res, ...), 2)`
with `res` the current volume estimate (line 227). -/
def l2entry (cfg : EngineCfg Vol Proj MQv) (k : Nat) : ℚ :=
  cfg.im3DNORM (cfg.subProj cfg.proj (cfg.Ax (cfg.dataminimizing^[k] cfg.res0))) 2

/-! ## Numpy values and the geometry record

`NpVal` models a numpy float that is either an ordinary (rational) value or
`+inf`; the only places infinity arises in the source are the clamp
`W[W < min(geo.dVoxel / 4)] = np.inf` and the element-wise inversion
`W = 1 / W` (numpy maps `1/0.0` to `inf` and `1/inf` to `0.0`). -/

inductive NpVal where
  | fin (q : ℚ)
  | pinf
deriving DecidableEq, Repr

/-- The clamp `W[W < t] = np.inf` applied to one entry (line 129). -/
def clampSmall (t : ℚ) (w : ℚ) : NpVal :=
  if w < t then NpVal.pinf else NpVal.fin w

/-- The inversion `1 / W` applied to one entry (line 130), with numpy semantics
`1/0.0 = inf`, `1/inf = 0.0`. -/
def npInv : NpVal → NpVal
  | NpVal.fin q => if q = 0 then NpVal.pinf else NpVal.fin (1 / q)
  | NpVal.pinf => NpVal.fin 0

/-- Model of `np.min` on a list (junk value `0` on the empty list). -/
def npMin : List ℚ → ℚ
  | [] => 0
  | x :: xs => xs.foldl min x

/-- The geometry fields the source reads or writes: voxel counts `nVoxel`,
physical volume size `sVoxel`, voxel size `dVoxel`, detector size
`sDetector`, origin offset `offOrigin`, source-to-detector `DSD` and
source-to-origin `DSO` distances, and the acquisition `mode`. -/
structure Geometry where
  nVoxel : List Nat
  sVoxel : List ℚ
  dVoxel : List ℚ
  sDetector : List ℚ
  offOrigin : List ℚ
  DSD : ℚ
  DSO : ℚ
  mode : String
deriving DecidableEq, Repr

/-- A projection pose `(primary angle, tilt, tilt)`. -/
def Pose : Type := ℚ × ℚ × ℚ

/-! ## `set_w` (lines 118-131) -/

/-- The transient geometry clone built by `set_w` (lines 123-127):
`geox = copy.deepcopy(self.geo)`, then `geox.sVoxel[0:] = geo.DSD - geo.DSO`,
`geox.sVoxel[2] = max(geox.sDetector[1], geox.sVoxel[2])`,
`geox.nVoxel = np.array([2, 2, 2])`, `geox.dVoxel = geox.sVoxel / geox.nVoxel`. -/
def set_w_geox (geo : Geometry) : Geometry :=
  let s1 := geo.sVoxel.map (fun _ => geo.DSD - geo.DSO)
  let s2 := s1.set 2 (max (geo.sDetector.getD 1 0) (s1.getD 2 0))
  let n2 : List Nat := [2, 2, 2]
  { geo with sVoxel := s2, nVoxel := n2,
             dVoxel := s2.zipWith (fun s n => s / n) (n2.map (fun n => (n : ℚ))) }

/-- Lines 129-130 applied to the flattened forward projection `axOut`:
`W[W < min(self.geo.dVoxel / 4)] = np.inf; W = 1 / W`.  Note the threshold
uses the caller's geometry `geo`, not the transient clone. -/
def set_w_W (geo : Geometry) (axOut : List ℚ) : List NpVal :=
  let t := npMin (geo.dVoxel.map (fun d => d / 4))
  (axOut.map (clampSmall t)).map npInv

/-- The part of the instance state `set_w` can touch: the geometry and
angles it reads, and the `W` attribute it sets. -/
structure WState where
  geo : Geometry
  angles : List Pose
  W : Option (List NpVal)

/-- Model of `IterativeReconAlg.set_w` (lines 118-131).  The projection capability
`Ax(ones(geox.nVoxel), geox, angles, "ray-voxel")` is abstract, passed as
`AxCap` applied to the transient clone and the angles. -/
def set_w (AxCap : Geometry → List Pose → List ℚ) (s : WState) : WState :=
  { s with W := some (set_w_W s.geo (AxCap (set_w_geox s.geo) s.angles)) }

/-! ## `set_v` (lines 133-164): shape semantics

The claim about `set_v` concerns the shape of the produced array `V`, so the
embedding gives the shape semantics of each numpy operation the source
composes: `np.arange`, `np.meshgrid`, `np.expand_dims` and broadcasting. -/

/-- Rational ceiling as an executable function (`ratCeil q = ⌈q⌉`, proved
below). -/
def ratCeil (q : ℚ) : Int := -Rat.floor (-q)

/-- Length of `np.arange(start, stop, step)`:
`max(0, ceil((stop - start) / step))` (0 for the degenerate step 0). -/
def arangeLen (start stop step : ℚ) : Nat :=
  if step = 0 then 0 else (ratCeil ((stop - start) / step)).toNat

/-- Model of `np.arange(start, stop, step)` as a list. -/
def npArange (start stop step : ℚ) : List ℚ :=
  (List.range (arangeLen start stop step)).map
    (fun (k : Nat) => start + (k : ℚ) * step)

/-- One broadcast dimension: equal, or one of the two is 1. -/
def bcDim (a b : Nat) : Option Nat :=
  if a = b then some a else if a = 1 then some b else if b = 1 then some a else none

/-- Broadcasting of reversed (trailing-first) shape lists. -/
def bcRev : List Nat → List Nat → Option (List Nat)
  | [], t => some t
  | a :: s, [] => some (a :: s)
  | a :: s, b :: t => do
      let d ← bcDim a b
      let r ← bcRev s t
      pure (d :: r)

/-- Numpy broadcasting of two shapes (right-aligned). -/
def broadcastShape (s t : List Nat) : Option (List Nat) :=
  (bcRev s.reverse t.reverse).map List.reverse

/-- The ramp `xv` of `set_v` (lines 141-145): `np.arange(start, stop + step,
step)` with `start = sVoxel[1]/2 - dVoxel[1]/2 + offOrigin[1]`,
`stop = -sVoxel[1]/2 + dVoxel[1]/2 + offOrigin[1]`, `step = -dVoxel[1]`. -/
def set_v_xv (geo : Geometry) : List ℚ :=
  let start := geo.sVoxel.getD 1 0 / 2 - geo.dVoxel.getD 1 0 / 2 + geo.offOrigin.getD 1 0
  let stop := -(geo.sVoxel.getD 1 0) / 2 + geo.dVoxel.getD 1 0 / 2 + geo.offOrigin.getD 1 0
  let step := -(geo.dVoxel.getD 1 0)
  npArange start (stop + step) step

/-- The ramp `yv` of `set_v` (lines 147-151), same construction on axis 2
(the global negation `-1 * np.arange(...)` does not change the length). -/
def set_v_yv (geo : Geometry) : List ℚ :=
  let start := geo.sVoxel.getD 2 0 / 2 - geo.dVoxel.getD 2 0 / 2 + geo.offOrigin.getD 2 0
  let stop := -(geo.sVoxel.getD 2 0) / 2 + geo.dVoxel.getD 2 0 / 2 + geo.offOrigin.getD 2 0
  let step := -(geo.dVoxel.getD 2 0)
  (npArange start (stop + step) step).map (fun x => -x)

/-- Shape of the array `V` produced by `set_v` for `nangles` angles
(lines 138-164).  Cone-beam branch: `np.meshgrid(yv, xv)` yields `yy`, `xx`
of shape `(len(xv), len(yv))`; `np.expand_dims(-, axis=2)` appends a
trailing 1; the arithmetic `(DSO / (DSO + yy*sin(-A) - xx*cos(-A)))**2`
broadcasts that against `A` of shape `(nangles,)`.  Parallel branch:
`np.ones([nangles, nVoxel[1], nVoxel[0]])`. -/
def set_v_shape (geo : Geometry) (nangles : Nat) : Option (List Nat) :=
  if geo.mode ≠ "parallel" then
    broadcastShape [(set_v_xv geo).length, (set_v_yv geo).length, 1] [nangles]
  else
    some [nangles, geo.nVoxel.getD 1 0, geo.nVoxel.getD 0 0]

/-! ## `set_res` (lines 166-190) and the `iterativereconalg` driver -/

/-- A numpy array reduced to what the claims need: its shape and data. -/
structure NDArr where
  shape : List Nat
  data : List ℚ
deriving DecidableEq, Repr

/-- Model of `np.zeros(shape)`. -/
def zerosArr (shape : List Nat) : NDArr :=
  ⟨shape, List.replicate (shape.foldl (fun a b => a * b) 1) 0⟩

/-- The `init` option: `None`, the strings `"FDK"` / `"multigrid"`, or a
user-supplied array.  (The cases are mutually exclusive by type, so the
three sequential `if`s of the source are a `match`.) -/
inductive InitOpt where
  | noneI
  | fdkI
  | multigridI
  | imageI (a : NDArr)
deriving DecidableEq, Repr

/-- Model of `IterativeReconAlg.set_res` (lines 166-190): start from
`np.zeros(geo.nVoxel)`; `init == 'multigrid'` adopts the multigrid
capability's result, `init == 'FDK'` the FDK capability's result; an ndarray
`init` is adopted as-is when `(geo.nVoxel == init.shape).all()` and
otherwise raises `ValueError('wrong dimension of array for initialisation')`.
The multigrid and FDK capabilities are abstract inputs `mg` and `fdk`. -/
def set_res (geo : Geometry) (init : InitOpt) (mg fdk : NDArr) : Except String NDArr :=
  match init with
  | InitOpt.multigridI => Except.ok mg
  | InitOpt.fdkI => Except.ok fdk
  | InitOpt.imageI a =>
      if geo.nVoxel = a.shape then Except.ok a
      else Except.error "wrong dimension of array for initialisation"
  | InitOpt.noneI => Except.ok (zerosArr geo.nVoxel)

/-- Construction of the engine for a given `init` option: `__init__` calls
`set_res` (line 112) and a `ValueError` raised there propagates, so a
mismatched user array aborts construction.  `pre` carries the remaining
configuration; on success the adopted volume becomes `res0`. -/
def construct {Proj MQv : Type} (pre : EngineCfg NDArr Proj MQv) (geo : Geometry)
    (init : InitOpt) (mg fdk : NDArr) : Except String (EngineCfg NDArr Proj MQv) :=
  (set_res geo init mg fdk).map (fun r => { pre with res0 := r })

/-- The module-level driver `iterativereconalg` produced by `decorator`
(lines 248-254): construct the engine, `run_main_iter()`, then return
`(getres(), getl2())` when `computel2` and `getres()` otherwise. -/
def iterativereconalg {Proj MQv : Type} (pre : EngineCfg NDArr Proj MQv)
    (geo : Geometry) (init : InitOpt) (mg fdk : NDArr) :
    Except String (NDArr × Option (List ℚ)) :=
  match construct pre geo init mg fdk with
  | Except.error e => Except.error e
  | Except.ok cfg =>
      let s := run_main_iter cfg
      Except.ok (getres s, if cfg.computel2 then some (getl2 s) else none)

/-! ## `__init__` attribute construction (lines 83-116)

Python instance attributes are modelled as a lookup function
`String → Option PyVal`; `self.__dict__.update(options)` then
`self.__dict__.update(**kwargs)` become sequential overrides. -/

/-- A Python value, as far as the configuration machinery needs one. -/
inductive PyVal where
  | pyInt (n : Int)
  | pyRat (q : ℚ)
  | pyBool (b : Bool)
  | pyStr (s : String)
  | pyNone
deriving DecidableEq, Repr

/-- Python truthiness of a `PyVal` (`if self.verbose:`). -/
def truthy : PyVal → Bool
  | PyVal.pyInt n => n ≠ 0
  | PyVal.pyRat q => q ≠ 0
  | PyVal.pyBool b => b
  | PyVal.pyStr s => s ≠ ""
  | PyVal.pyNone => false

/-- The `options` defaults dict (lines 90-94). -/
def options : List (String × PyVal) :=
  [("blocksize", PyVal.pyInt 20), ("lmbda", PyVal.pyInt 1),
   ("lmbda_red", PyVal.pyRat (99 / 100)), ("OrderStrategy", PyVal.pyNone),
   ("Quameasopts", PyVal.pyNone), ("init", PyVal.pyNone),
   ("verbose", PyVal.pyBool true), ("noneg", PyVal.pyBool true),
   ("computel2", PyVal.pyBool false),
   ("dataminimizing", PyVal.pyStr "art_data_minimizing"),
   ("regularisation", PyVal.pyStr "minimizeTV")]

def optionKeys : List String := options.map Prod.fst

/-- The `allowed_keywords` list (line 95). -/
def allowed_keywords : List String :=
  ["V", "W", "log_parameters", "angleblocks", "angle_index"]

/-- First-match lookup in an association list (kwargs dicts have unique
keys, so first match is the match). -/
def lookupA (d : List (String × PyVal)) (k : String) : Option PyVal :=
  (d.find? (fun p => p.fst = k)).map Prod.snd

/-- Dictionary update `base.update(u)`: keys of `u` win. -/
def applyUpdate (base : String → Option PyVal) (u : List (String × PyVal)) :
    String → Option PyVal :=
  fun k => match lookupA u k with
    | some v => some v
    | none => base k

/-- The attribute dictionary right after lines 96-97:
`self.__dict__.update(options); self.__dict__.update(**kwargs)`. -/
def initAttrs (kwargs : List (String × PyVal)) : String → Option PyVal :=
  applyUpdate (applyUpdate (fun _ => none) options) kwargs

/-- The value of `self.verbose` used by the warning loop (always present:
it has a default in `options`). -/
def verboseOf (kwargs : List (String × PyVal)) : Bool :=
  truthy ((initAttrs kwargs "verbose").getD PyVal.pyNone)

/-- The warning loop (lines 98-102): for each kwarg key not in `options`
and not in `allowed_keywords`, a warning is printed when `self.verbose` is
truthy.  Returns the list of warned-about keys. -/
def initWarnings (kwargs : List (String × PyVal)) : List String :=
  (kwargs.map Prod.fst).filter
    (fun kw => !(decide (kw ∈ optionKeys)) && !(decide (kw ∈ allowed_keywords))
               && verboseOf kwargs)

/-! ## The `hasattr` guards for the derived quantities (lines 107-114) -/

/-- Which of the four builders run, as a record of Booleans. -/
structure BuildersRun where
  set_w : Bool
  set_v : Bool
  set_res : Bool
  set_angle_index : Bool
deriving DecidableEq, Repr

/-- Instance attribute names present when the guards at lines 107-114 are
evaluated: the four positional attributes (lines 85-88), every key of
`options`, and every kwarg key (lines 96-97).  (Line 106 re-assigns
`angles`, already present.) -/
def instanceAttrs0 (kwargKeys : List String) : List String :=
  ["proj", "angles", "geo", "niter"] ++ optionKeys ++ kwargKeys

/-- The builder guards (lines 107-114): each builder runs iff its `hasattr`
test fails.  Note the source tests `hasattr(self, 'angleindex')` — with no
underscore — while the attribute set by kwargs or by `set_angle_index`
itself is named `angle_index`. -/
def buildersRun (kwargKeys : List String) : BuildersRun :=
  let hasattr := fun a => (instanceAttrs0 kwargKeys).contains a
  { set_w := !hasattr "W"
    set_v := !hasattr "V"
    set_res := !hasattr "res"
    set_angle_index := !(hasattr "angleindex" && hasattr "angleblocks") }

/-! ## Concrete instances used to exercise the model -/

/-- A concrete engine configuration over rational volumes and projections:
the data-minimization capability adds 1 to the (scalar) volume estimate,
the projection operator is the identity, the norm returns the residual
itself and `MQ` returns the current volume. -/
def cfgQ (niter : Nat) (qm : Option (List String)) (cl2 : Bool) : EngineCfg ℚ ℚ ℚ :=
  { niter := niter, Quameasopts := qm, computel2 := cl2, proj := 10, res0 := 0,
    dataminimizing := fun v => v + 1, Ax := fun v => v,
    subProj := fun a b => a - b, im3DNORM := fun p _ => p, MQ := fun a _ _ => a }

/-- A concrete cone-beam geometry: a 4×4×4 volume of physical size 4
(unit voxels), centered, `DSD = 10`, `DSO = 5`. -/
def sampleGeo : Geometry :=
  { nVoxel := [4, 4, 4], sVoxel := [4, 4, 4], dVoxel := [1, 1, 1],
    sDetector := [2, 2], offOrigin := [0, 0, 0], DSD := 10, DSO := 5,
    mode := "cone" }

/-- A concrete engine configuration over `NDArr` volumes, for exercising the
`iterativereconalg` driver. -/
def cfgArr : EngineCfg NDArr ℚ ℚ :=
  { niter := 1, Quameasopts := none, computel2 := false, proj := 0,
    res0 := zerosArr [1], dataminimizing := fun v => v, Ax := fun _ => 0,
    subProj := fun a b => a - b, im3DNORM := fun p _ => p, MQ := fun _ _ _ => 0 }

/-! ### Effect of one round on each state field -/

theorem iterBody_res (cfg : EngineCfg Vol Proj MQv) (s : IterState Vol MQv) (i : Nat) :
    (iterBody cfg s i).res = cfg.dataminimizing s.res := by
  unfold iterBody error_measurement
  split_ifs <;> rfl

theorem iterBody_lq (cfg : EngineCfg Vol Proj MQv) (s : IterState Vol MQv) (i : Nat) :
    (iterBody cfg s i).lq = s.lq ++
      (if cfg.Quameasopts.isSome ∧ 0 < i then
        [cfg.MQ (cfg.dataminimizing s.res)
          (if cfg.Quameasopts.isSome then some s.res else none) cfg.Quameasopts]
       else []) := by
  unfold iterBody error_measurement
  split_ifs <;> simp_all

theorem iterBody_l2l (cfg : EngineCfg Vol Proj MQv) (s : IterState Vol MQv) (i : Nat) :
    (iterBody cfg s i).l2l = s.l2l ++
      (if cfg.computel2 then
        [cfg.im3DNORM (cfg.subProj cfg.proj (cfg.Ax (cfg.dataminimizing s.res))) 2]
       else []) := by
  unfold iterBody error_measurement
  split_ifs <;> simp_all

theorem iterBody_trace (cfg : EngineCfg Vol Proj MQv) (s : IterState Vol MQv) (i : Nat) :
    (iterBody cfg s i).trace = s.trace ++ [Event.dataMin] ++
      (if cfg.Quameasopts.isSome ∧ 0 < i then [Event.qualityMeasure] else []) ++
      (if cfg.computel2 then [Event.residualNorm] else []) := by
  unfold iterBody error_measurement
  split_ifs <;> simp_all

/-! ### Loop invariant -/

theorem runN_succ (cfg : EngineCfg Vol Proj MQv) (k : Nat) :
    runN cfg (k + 1) = iterBody cfg (runN cfg k) k := by
  simp [runN, List.range_succ]

theorem runN_res (cfg : EngineCfg Vol Proj MQv) (n : Nat) :
    (runN cfg n).res = cfg.dataminimizing^[n] cfg.res0 := by
  induction n with
  | zero => rfl
  | succ k ih =>
      rw [runN_succ, iterBody_res, ih, Function.iterate_succ_apply']

theorem runN_lq_length (cfg : EngineCfg Vol Proj MQv) (n : Nat) :
    (runN cfg n).lq.length = (if cfg.Quameasopts.isSome then n - 1 else 0) := by
  induction n with
  | zero => simp [runN, initState]
  | succ k ih =>
      rw [runN_succ, iterBody_lq, List.length_append, ih]
      by_cases hq : cfg.Quameasopts.isSome
      · by_cases hk : 0 < k
        · simp only [hq, hk, and_self, if_true, List.length_singleton]
          omega
        · have hk0 : k = 0 := by omega
          subst hk0
          simp
      · simp [hq]

theorem runN_l2l (cfg : EngineCfg Vol Proj MQv) (n : Nat) :
    (runN cfg n).l2l =
      (if cfg.computel2 then (List.range n).map (fun i => l2entry cfg (i + 1)) else []) := by
  induction n with
  | zero => simp [runN, initState]
  | succ k ih =>
      rw [runN_succ, iterBody_l2l, ih, runN_res]
      by_cases hl : cfg.computel2
      · simp [hl, List.range_succ, l2entry, Function.iterate_succ_apply']
      · simp [hl]

theorem runN_trace_dataMin (cfg : EngineCfg Vol Proj MQv) (n : Nat) :
    countEvent Event.dataMin (runN cfg n).trace = n := by
  induction n with
  | zero => simp [runN, initState, countEvent]
  | succ k ih =>
      rw [runN_succ, iterBody_trace]
      simp only [countEvent, List.countP_append] at ih ⊢
      split_ifs <;> simp_all [List.countP_cons]

theorem runN_trace_no_regularisation (cfg : EngineCfg Vol Proj MQv) (n : Nat) :
    Event.regularisation ∉ (runN cfg n).trace := by
  induction n with
  | zero => simp [runN, initState]
  | succ k ih =>
      rw [runN_succ, iterBody_trace]
      simp only [List.mem_append]
      split_ifs <;> simp_all

theorem runN_lq_none (cfg : EngineCfg Vol Proj MQv) (n : Nat)
    (hq : cfg.Quameasopts = none) : (runN cfg n).lq = [] := by
  induction n with
  | zero => rfl
  | succ k ih =>
      rw [runN_succ, iterBody_lq, ih]
      simp [hq]

/-! ### Helper lemmas for `set_v` shapes -/

theorem ratCeil_eq_ceil (q : ℚ) : ratCeil q = ⌈q⌉ := by
  rw [ratCeil, Rat.floor_def' (-q), ← Rat.floor_def, Int.floor_neg, neg_neg]

theorem arangeLen_units (n : Nat) (d o : ℚ) (hd : 0 < d) :
    arangeLen ((n : ℚ) * d / 2 - d / 2 + o) (-((n : ℚ) * d) / 2 + d / 2 + o + -d) (-d)
      = n := by
  have hd0 : -d ≠ 0 := neg_ne_zero.mpr (ne_of_gt hd)
  unfold arangeLen
  rw [if_neg hd0]
  have hq : ((-((n : ℚ) * d) / 2 + d / 2 + o + -d) - ((n : ℚ) * d / 2 - d / 2 + o)) / -d
      = (n : ℚ) := by
    field_simp
    ring
  rw [hq, ratCeil_eq_ceil, Int.ceil_natCast, Int.toNat_natCast]

theorem set_v_xv_length (geo : Geometry)
    (hd : 0 < geo.dVoxel.getD 1 0)
    (hs : geo.sVoxel.getD 1 0 = (geo.nVoxel.getD 1 0 : ℚ) * geo.dVoxel.getD 1 0) :
    (set_v_xv geo).length = geo.nVoxel.getD 1 0 := by
  unfold set_v_xv npArange
  rw [List.length_map, List.length_range, hs]
  exact arangeLen_units (geo.nVoxel.getD 1 0) (geo.dVoxel.getD 1 0)
    (geo.offOrigin.getD 1 0) hd

theorem set_v_yv_length (geo : Geometry)
    (hd : 0 < geo.dVoxel.getD 2 0)
    (hs : geo.sVoxel.getD 2 0 = (geo.nVoxel.getD 2 0 : ℚ) * geo.dVoxel.getD 2 0) :
    (set_v_yv geo).length = geo.nVoxel.getD 2 0 := by
  unfold set_v_yv npArange
  rw [List.length_map, List.length_map, List.length_range, hs]
  exact arangeLen_units (geo.nVoxel.getD 2 0) (geo.dVoxel.getD 2 0)
    (geo.offOrigin.getD 2 0) hd

theorem bcDim_one (b : Nat) : bcDim 1 b = some b := by
  unfold bcDim
  split_ifs with h1 h2 <;> simp_all

theorem broadcastShape_grid (a b c : Nat) :
    broadcastShape [a, b, 1] [c] = some [a, b, c] := by
  simp [broadcastShape, bcRev, bcDim_one]

/-! ### Helper lemmas for `set_w` -/

theorem foldl_min_div4 (xs : List ℚ) (a : ℚ) :
    (xs.map (fun d => d / 4)).foldl min (a / 4) = xs.foldl min a / 4 := by
  induction xs generalizing a with
  | nil => rfl
  | cons x xs ih =>
      simp only [List.map_cons, List.foldl_cons]
      rw [min_div_div_right (by norm_num : (0 : ℚ) ≤ 4), ih]

theorem npMin_map_div4 (l : List ℚ) :
    npMin (l.map (fun d => d / 4)) = npMin l / 4 := by
  cases l with
  | nil => simp [npMin]
  | cons x xs =>
      simp only [List.map_cons, npMin]
      exact foldl_min_div4 xs x

/-! ### Helper lemma for the kwargs dictionary -/

theorem lookupA_eq_of_mem (kwargs : List (String × PyVal))
    (hnd : (kwargs.map Prod.fst).Nodup) (k : String) (v : PyVal)
    (hm : (k, v) ∈ kwargs) : lookupA kwargs k = some v := by
  induction kwargs with
  | nil => cases hm
  | cons p rest ih =>
      rcases List.mem_cons.mp hm with h | h
      · subst h
        simp [lookupA]
      · have hk : k ∈ rest.map Prod.fst := List.mem_map.mpr ⟨(k, v), h, rfl⟩
        have hne : ¬(p.fst = k) := fun he => (List.nodup_cons.mp hnd).1 (he ▸ hk)
        have ihr := ih (List.nodup_cons.mp hnd).2 h
        simpa [lookupA, List.find?_cons, hne] using ihr

/-! ## The claims -/

/-- C1 counterexample: with the data-minimization capability modelled from
the spec as an opaque volume update, a run with `niter = 1` executes its one
round invoking only that capability — the trace contains no
`regularisation` event, contradicting the claim that every round invokes
the data-minimization capability followed by the regularisation
capability. -/
theorem C1_counterexample :
    (cfgQ 1 none false).niter = 1 ∧
    (run_main_iter (cfgQ 1 none false)).trace = [Event.dataMin] ∧
    Event.regularisation ∉ (run_main_iter (cfgQ 1 none false)).trace := by
  refine ⟨rfl, ?_, ?_⟩ <;> decide

/-- C1 (amended): `run_main_iter` executes exactly `niter` rounds, each
round invoking the configured data-minimization capability on the volume
estimate (so the final estimate is the `niter`-fold application of that
capability); `run_main_iter` itself never invokes the configured
regularisation capability. -/
theorem C1_rounds (cfg : EngineCfg Vol Proj MQv) :
    countEvent Event.dataMin (run_main_iter cfg).trace = cfg.niter ∧
    (run_main_iter cfg).res = cfg.dataminimizing^[cfg.niter] cfg.res0 ∧
    Event.regularisation ∉ (run_main_iter cfg).trace :=
  ⟨runN_trace_dataMin cfg cfg.niter, runN_res cfg cfg.niter,
   runN_trace_no_regularisation cfg cfg.niter⟩

/-- C2: pre-supplying `W`, `V` or `res` as a keyword argument skips the
corresponding builder, independently of the others, and each builder runs
when its quantity is absent; but pre-supplying the angle schedule
(`angleblocks` plus `angle_index`) does NOT skip `set_angle_index`, because
the guard at line 113 tests `hasattr(self, 'angleindex')` — a name that is
never set (the attribute is `angle_index`) — so the builder runs and
overwrites the supplied schedule.  Only the literally misspelled key
`angleindex` would suppress it. -/
theorem C2_angle_schedule_guard :
    buildersRun ["angleblocks", "angle_index"] =
      { set_w := true, set_v := true, set_res := true, set_angle_index := true } ∧
    buildersRun [] =
      { set_w := true, set_v := true, set_res := true, set_angle_index := true } ∧
    buildersRun ["W"] =
      { set_w := false, set_v := true, set_res := true, set_angle_index := true } ∧
    buildersRun ["V"] =
      { set_w := true, set_v := false, set_res := true, set_angle_index := true } ∧
    buildersRun ["res"] =
      { set_w := true, set_v := true, set_res := false, set_angle_index := true } ∧
    buildersRun ["angleindex", "angleblocks"] =
      { set_w := true, set_v := true, set_res := true, set_angle_index := false } := by
  decide

/-- C3 counterexample: for a cone-mode geometry with a 4×4×4 volume and 8
angles, the `V` computed by `set_v` has shape `(4, 4, 8)` — the angle axis
is LAST — not the claimed `(angle count, row count, column count) =
(8, 4, 4)`. -/
theorem C3_counterexample :
    set_v_shape sampleGeo 8 = some [4, 4, 8] ∧
    set_v_shape sampleGeo 8 ≠ some [8, 4, 4] := by
  have hx : (set_v_xv sampleGeo).length = 4 :=
    set_v_xv_length sampleGeo (by norm_num [sampleGeo]) (by norm_num [sampleGeo])
  have hy : (set_v_yv sampleGeo).length = 4 :=
    set_v_yv_length sampleGeo (by norm_num [sampleGeo]) (by norm_num [sampleGeo])
  have hs : set_v_shape sampleGeo 8 = some [4, 4, 8] := by
    unfold set_v_shape
    rw [if_pos (by decide : sampleGeo.mode ≠ "parallel"), hx, hy]
    exact broadcastShape_grid 4 4 8
  refine ⟨hs, ?_⟩
  rw [hs]
  decide

/-- C3 (amended): in cone-beam mode (geometry mode not parallel), the
computed falloff field `V` has shape `(row count, column count, angle
count)`, i.e. `(nVoxel[1], nVoxel[2], nangles)` — the angle axis comes from
broadcasting and is the trailing axis.  The hypotheses are the geometry
invariant `sVoxel = nVoxel * dVoxel` (element-wise) on the two transverse
axes, with positive voxel size. -/
theorem C3_cone_shape (geo : Geometry) (nangles : Nat)
    (hm : geo.mode ≠ "parallel")
    (h1 : 0 < geo.dVoxel.getD 1 0)
    (hs1 : geo.sVoxel.getD 1 0 = (geo.nVoxel.getD 1 0 : ℚ) * geo.dVoxel.getD 1 0)
    (h2 : 0 < geo.dVoxel.getD 2 0)
    (hs2 : geo.sVoxel.getD 2 0 = (geo.nVoxel.getD 2 0 : ℚ) * geo.dVoxel.getD 2 0) :
    set_v_shape geo nangles =
      some [geo.nVoxel.getD 1 0, geo.nVoxel.getD 2 0, nangles] := by
  unfold set_v_shape
  rw [if_pos hm, set_v_xv_length geo h1 hs1, set_v_yv_length geo h2 hs2]
  exact broadcastShape_grid _ _ _

/-- C3 witness: the amended shape theorem applied to the concrete cone-beam
geometry `sampleGeo` with 8 angles. -/
theorem C3_witness :
    sampleGeo.mode ≠ "parallel" ∧ set_v_shape sampleGeo 8 = some [4, 4, 8] :=
  ⟨by decide, by
    have h := C3_cone_shape sampleGeo 8 (by decide) (by norm_num [sampleGeo])
      (by norm_num [sampleGeo]) (by norm_num [sampleGeo]) (by norm_num [sampleGeo])
    simpa [sampleGeo] using h⟩

/-- C4: a user-supplied initial volume whose shape differs from the
geometry's voxel shape makes the whole `iterativereconalg` driver fail with
the `ValueError('wrong dimension of array for initialisation')` raised by
`set_res` during construction — before any iteration can run — while a
matching shape makes `set_res` adopt the array as-is. -/
theorem C4_user_init (pre : EngineCfg NDArr Proj MQv) (geo : Geometry)
    (a mg fdk : NDArr) :
    (geo.nVoxel ≠ a.shape →
      iterativereconalg pre geo (InitOpt.imageI a) mg fdk =
        Except.error "wrong dimension of array for initialisation") ∧
    (geo.nVoxel = a.shape →
      set_res geo (InitOpt.imageI a) mg fdk = Except.ok a) := by
  constructor
  · intro h
    simp [iterativereconalg, construct, set_res, h, Except.map]
  · intro h
    simp [set_res, h]

/-- C4 witness: the dimension check exercised on concrete arrays — a
mismatched 3×3×3 array aborts the driver, a matching 4×4×4 array is
adopted. -/
theorem C4_witness :
    iterativereconalg cfgArr sampleGeo (InitOpt.imageI ⟨[3, 3, 3], []⟩)
        (zerosArr [1]) (zerosArr [1]) =
      Except.error "wrong dimension of array for initialisation" ∧
    set_res sampleGeo (InitOpt.imageI (zerosArr [4, 4, 4]))
        (zerosArr [1]) (zerosArr [1]) =
      Except.ok (zerosArr [4, 4, 4]) :=
  ⟨(C4_user_init cfgArr sampleGeo ⟨[3, 3, 3], []⟩ (zerosArr [1]) (zerosArr [1])).1
      (by decide),
   (C4_user_init cfgArr sampleGeo (zerosArr [4, 4, 4]) (zerosArr [1])
      (zerosArr [1])).2 (by decide)⟩

/-- C5: with quality tracking enabled (`Quameasopts` not `None`), the
quality log `lq` has exactly `niter - 1` entries after the run (truncated
subtraction: no entry is appended on the first iteration); with quality
tracking disabled it stays empty. -/
theorem C5_quality_log (cfg : EngineCfg Vol Proj MQv) :
    (cfg.Quameasopts.isSome = true →
      (run_main_iter cfg).lq.length = cfg.niter - 1) ∧
    (cfg.Quameasopts = none → (run_main_iter cfg).lq = []) := by
  constructor
  · intro h
    rw [run_main_iter, runN_lq_length, if_pos h]
  · intro h
    exact runN_lq_none cfg cfg.niter h

/-- C5 witness: a 3-iteration run with quality tracking logs 2 entries; a
3-iteration run without it logs none. -/
theorem C5_witness :
    (run_main_iter (cfgQ 3 (some ["RMSE"]) false)).lq.length = 3 - 1 ∧
    (run_main_iter (cfgQ 3 none false)).lq = [] :=
  ⟨(C5_quality_log (cfgQ 3 (some ["RMSE"]) false)).1 (by decide),
   (C5_quality_log (cfgQ 3 none false)).2 (by decide)⟩

/-- C6: with residual tracking (`computel2`) enabled, the residual log
`l2l` has exactly `niter` entries, the `i`-th being the order-2 norm of
(measured projections minus the forward projection of the volume estimate
after `i + 1` data-minimization updates); with residual tracking disabled
it stays empty. -/
theorem C6_residual_log (cfg : EngineCfg Vol Proj MQv) :
    (cfg.computel2 = true →
      (run_main_iter cfg).l2l.length = cfg.niter ∧
      (run_main_iter cfg).l2l =
        (List.range cfg.niter).map (fun i => l2entry cfg (i + 1))) ∧
    (cfg.computel2 = false → (run_main_iter cfg).l2l = []) := by
  constructor
  · intro h
    rw [run_main_iter, runN_l2l, if_pos h]
    exact ⟨by simp, rfl⟩
  · intro h
    rw [run_main_iter, runN_l2l]
    simp [h]

/-- C6 witness: a 2-iteration run with residual tracking logs exactly the
two residual norms; without it the log is empty. -/
theorem C6_witness :
    (run_main_iter (cfgQ 2 none true)).l2l.length = 2 ∧
    (run_main_iter (cfgQ 2 none true)).l2l =
      (List.range 2).map (fun i => l2entry (cfgQ 2 none true) (i + 1)) ∧
    (run_main_iter (cfgQ 2 none false)).l2l = [] :=
  ⟨((C6_residual_log (cfgQ 2 none true)).1 (by decide)).1,
   ((C6_residual_log (cfgQ 2 none true)).1 (by decide)).2,
   (C6_residual_log (cfgQ 2 none false)).2 (by decide)⟩

/-- C7: for a geometry whose minimum voxel size is positive, every entry of
the weight field `W` produced by the clamp-and-invert of `set_w` is a
finite, non-negative value: entries below one quarter of the minimum voxel
size are set to infinity before inversion (yielding 0), all others invert
to positive finite values — no entry is NaN, negative or infinite. -/
theorem C7_W_finite_nonneg (geo : Geometry) (axOut : List ℚ)
    (h : 0 < npMin geo.dVoxel) :
    ∀ v ∈ set_w_W geo axOut, ∃ q : ℚ, v = NpVal.fin q ∧ 0 ≤ q := by
  intro v hv
  have ht : 0 < npMin (geo.dVoxel.map (fun d => d / 4)) := by
    rw [npMin_map_div4]
    positivity
  simp only [set_w_W, List.map_map, List.mem_map, Function.comp_apply] at hv
  obtain ⟨w, _, rfl⟩ := hv
  by_cases hlt : w < npMin (geo.dVoxel.map (fun d => d / 4))
  · exact ⟨0, by simp [clampSmall, npInv, hlt], le_refl 0⟩
  · have hw : 0 < w := lt_of_lt_of_le ht (le_of_not_lt hlt)
    exact ⟨1 / w, by simp [clampSmall, npInv, hlt, ne_of_gt hw], by positivity⟩

/-- C7 witness: the clamp-and-invert applied to concrete ray lengths
(including a zero and a negative entry) over a unit-voxel geometry. -/
theorem C7_witness :
    0 < npMin sampleGeo.dVoxel ∧
    ∀ v ∈ set_w_W sampleGeo [0, 5, 1 / 8, -3],
      ∃ q : ℚ, v = NpVal.fin q ∧ 0 ≤ q :=
  ⟨by decide, C7_W_finite_nonneg sampleGeo [0, 5, 1 / 8, -3] (by decide)⟩

/-- C8: `set_w` leaves the caller's geometry (and angles) unchanged: it
only reads them, builds the transient deep copy `set_w_geox` — whose voxel
grid is the 2×2×2 cube — and writes the `W` attribute computed from the
forward projection through that copy. -/
theorem C8_set_w_frame (AxCap : Geometry → List Pose → List ℚ) (s : WState) :
    (set_w AxCap s).geo = s.geo ∧
    (set_w AxCap s).angles = s.angles ∧
    (set_w_geox s.geo).nVoxel = [2, 2, 2] ∧
    (set_w AxCap s).W =
      some (set_w_W s.geo (AxCap (set_w_geox s.geo) s.angles)) :=
  ⟨rfl, rfl, rfl, rfl⟩

/-- C9: with `niter = 0` the loop body never runs: no capability is invoked
(empty trace), the quality log and the residual log stay empty, and
`getres` returns the initial volume unchanged. -/
theorem C9_niter_zero (cfg : EngineCfg Vol Proj MQv) (h : cfg.niter = 0) :
    (run_main_iter cfg).trace = [] ∧
    (run_main_iter cfg).lq = [] ∧
    (run_main_iter cfg).l2l = [] ∧
    getres (run_main_iter cfg) = cfg.res0 := by
  rw [run_main_iter, h]
  exact ⟨rfl, rfl, rfl, rfl⟩

/-- C9 witness: the zero-iteration run on a concrete configuration. -/
theorem C9_witness :
    (run_main_iter (cfgQ 0 none false)).trace = [] ∧
    (run_main_iter (cfgQ 0 none false)).lq = [] ∧
    (run_main_iter (cfgQ 0 none false)).l2l = [] ∧
    getres (run_main_iter (cfgQ 0 none false)) = (cfgQ 0 none false).res0 :=
  C9_niter_zero (cfgQ 0 none false) rfl

/-- C10: every keyword argument (with the distinct keys Python kwargs
guarantee) is stored verbatim as an instance attribute, overwriting any
default of the same name; no name is ever rejected, and a key appears in
the warning output exactly when it is neither a default option nor an
allowed keyword and the (post-update) verbose flag is truthy. -/
theorem C10_kwargs_stored (kwargs : List (String × PyVal))
    (hnd : (kwargs.map Prod.fst).Nodup) (k : String) (v : PyVal)
    (hm : (k, v) ∈ kwargs) :
    initAttrs kwargs k = some v ∧
    (k ∈ initWarnings kwargs ↔
      (verboseOf kwargs = true ∧ k ∉ optionKeys ∧ k ∉ allowed_keywords)) := by
  have hl := lookupA_eq_of_mem kwargs hnd k v hm
  constructor
  · simp [initAttrs, applyUpdate, hl]
  · have hkm : k ∈ kwargs.map Prod.fst := List.mem_map.mpr ⟨(k, v), hm, rfl⟩
    simp only [initWarnings, List.mem_filter, hkm, true_and, Bool.and_eq_true,
      Bool.not_eq_true', decide_eq_false_iff_not]
    tauto

/-- C10 witness: the unrecognized key `foo` is stored verbatim and warned
about (verbose defaults to true), alongside a recognized key. -/
theorem C10_witness :
    initAttrs [("blocksize", PyVal.pyInt 5), ("foo", PyVal.pyStr "bar")] "foo" =
      some (PyVal.pyStr "bar") ∧
    ("foo" ∈ initWarnings [("blocksize", PyVal.pyInt 5), ("foo", PyVal.pyStr "bar")] ↔
      (verboseOf [("blocksize", PyVal.pyInt 5), ("foo", PyVal.pyStr "bar")] = true ∧
       "foo" ∉ optionKeys ∧ "foo" ∉ allowed_keywords)) :=
  C10_kwargs_stored [("blocksize", PyVal.pyInt 5), ("foo", PyVal.pyStr "bar")]
    (by decide) "foo" (PyVal.pyStr "bar") (by decide)

end TigreIter
